import Mathlib

/-!
Shallow embedding of the deferred-shading renderer in
`src/KarmaView/mainwidget.cpp` (QtOpenGL, KarmaView widget).

Floating-point quantities whose numeric values no claim inspects
(camera angles, gesture deltas, depth-range scalars) are represented
symbolically: mutations are recorded as operation sequences rather than
re-implemented float arithmetic.  GPU side effects are modelled as an
explicit command trace; CPU-side member state is modelled as records.
-/

namespace KarmaView

/-- The `DeferredData` enum of mainwidget.cpp (lines 41-54): the selectable
output channel.  `LightPass` is the composed/lit result. -/
inductive DeferredData
  | DepthData
  | LinearDepthData
  | PositionData
  | NormalData
  | DiffuseData
  | SpecularData
  | VelocityData
  | AmbientPass
  | MotionBlurPass
  | LightPass
  deriving DecidableEq, Repr, Fintype

/-- `#define DEFERRED_TEXTURES 4` (line 39). -/
def DEFERRED_TEXTURES : Nat := 4

/-- Names of the render-target textures owned by `MainWidgetPrivate`:
`m_deferredTextures[0..3]`, `m_backBuffer`, `m_depthTexture`. -/
inductive TexName
  | deferredTexture (i : Fin 4)
  | backBufferTex
  | depthTex
  deriving DecidableEq, Repr

/-- Framebuffer binding targets: the G-buffer FBO (`m_deferredBuffer`),
the light FBO (`m_lightBuffer`), and the widget default framebuffer. -/
inductive FBTarget
  | deferredFB
  | lightFB
  | defaultFB
  deriving DecidableEq, Repr

/-- Shader programs bound during a frame: the G-buffer fill program
(`m_program`), the point-light program (`m_pointLightProgram`), and the
per-channel presentation programs (`m_deferredPrograms[d]`). -/
inductive ProgName
  | gbufferProgram
  | pointLightProgram
  | deferredProgram (d : DeferredData)
  deriving DecidableEq, Repr

/-- GL depth comparison functions used by the renderer. -/
inductive DepthFn
  | lessFn
  | greaterFn
  deriving DecidableEq, Repr

/-- One GPU command issued by the renderer, in program order.  Each
constructor corresponds to one call in mainwidget.cpp. -/
inductive GLCmd
  | disableDepthTest
  | enableDepthTest
  | depthMask (enabled : Bool)
  | activeTexture (unit : Nat)
  | bindTexture (t : TexName)
  | releaseTexture (t : TexName)
  | bindFramebuffer (f : FBTarget)
  | clearColorBuffer
  | clearColorAndDepth
  | enableBlend
  | disableBlend
  | blendFuncOneOne
  | depthFunc (f : DepthFn)
  | bindProgram (p : ProgName)
  | releaseProgram (p : ProgName)
  | uniformWrite (offsetBytes lenBytes : Nat)
  | instanceGroupUpdate
  | floorGroupUpdate
  | pointLightGroupUpdate
  | floorGroupDraw
  | instanceGroupDraw
  | pointLightGroupDraw
  | quadDraw
  deriving DecidableEq, Repr

/-- `MainWidgetPrivate::drawBackbuffer` (lines 289-326) as a command
trace, parameterised by the selected channel `m_buffer`. -/
def drawBackbuffer (buffer : DeferredData) : List GLCmd :=
  [GLCmd.disableDepthTest,
   GLCmd.depthMask false,
   GLCmd.activeTexture 0, GLCmd.bindTexture (TexName.deferredTexture 0),
   GLCmd.activeTexture 1, GLCmd.bindTexture (TexName.deferredTexture 1),
   GLCmd.activeTexture 2, GLCmd.bindTexture (TexName.deferredTexture 2),
   GLCmd.activeTexture 3, GLCmd.bindTexture TexName.backBufferTex,
   GLCmd.activeTexture 4, GLCmd.bindTexture (TexName.deferredTexture 3),
   GLCmd.activeTexture 5, GLCmd.bindTexture TexName.depthTex]
  ++ (if buffer = DeferredData.LightPass ∨ buffer = DeferredData.MotionBlurPass then
       [GLCmd.bindFramebuffer FBTarget.lightFB,
        GLCmd.clearColorBuffer,
        GLCmd.enableBlend,
        GLCmd.blendFuncOneOne,
        GLCmd.depthFunc DepthFn.greaterFn,
        GLCmd.bindProgram ProgName.pointLightProgram,
        GLCmd.pointLightGroupDraw,
        GLCmd.depthFunc DepthFn.lessFn,
        GLCmd.disableBlend,
        GLCmd.bindFramebuffer FBTarget.defaultFB]
      else [])
  ++ [GLCmd.bindProgram (ProgName.deferredProgram buffer),
      GLCmd.quadDraw,
      GLCmd.releaseProgram (ProgName.deferredProgram buffer),
      GLCmd.releaseTexture TexName.backBufferTex,
      GLCmd.depthMask true,
      GLCmd.enableDepthTest]

/-- `sizeof(GLfloat)` on the target platform. -/
def sizeofFloat : Nat := 4

/-- Size in bytes of the `GlobalBuffer` uniform block allocation,
`sizeof(GLfloat) * (16 * 10 + 4 + 5)` (line 390). -/
def matrixBlockAllocation : Nat := sizeofFloat * (16 * 10 + 4 + 5)

/-- The "Prepare Scene" block of `MainWidget::paintGL` (lines 519-538):
the sixteen `m_matrixBlock.write` calls with their byte offsets and
sizes exactly as in the source, followed by the three group updates. -/
def prepareSceneCmds : List GLCmd :=
  [GLCmd.uniformWrite 0 (sizeofFloat * 16),
   GLCmd.uniformWrite (sizeofFloat * 16) (sizeofFloat * 16),
   GLCmd.uniformWrite (sizeofFloat * 16 * 2) (sizeofFloat * 16),
   GLCmd.uniformWrite (sizeofFloat * 16 * 3) (sizeofFloat * 16),
   GLCmd.uniformWrite (sizeofFloat * 16 * 4) (sizeofFloat * 16),
   GLCmd.uniformWrite (sizeofFloat * 16 * 5) (sizeofFloat * 16),
   GLCmd.uniformWrite (sizeofFloat * 16 * 6) (sizeofFloat * 16),
   GLCmd.uniformWrite (sizeofFloat * 16 * 7) (sizeofFloat * 16),
   GLCmd.uniformWrite (sizeofFloat * 16 * 8) (sizeofFloat * 16),
   GLCmd.uniformWrite (sizeofFloat * 16 * 9) (sizeofFloat * 16),
   GLCmd.uniformWrite (sizeofFloat * 16 * 10) (sizeofFloat * 4),
   GLCmd.uniformWrite (sizeofFloat * (16 * 10 + 4)) sizeofFloat,
   GLCmd.uniformWrite (sizeofFloat * (16 * 10 + 5)) sizeofFloat,
   GLCmd.uniformWrite (sizeofFloat * (16 * 10 + 6)) sizeofFloat,
   GLCmd.uniformWrite (sizeofFloat * (16 * 10 + 7)) sizeofFloat,
   GLCmd.uniformWrite (sizeofFloat * (16 * 10 + 8)) sizeofFloat,
   GLCmd.instanceGroupUpdate,
   GLCmd.floorGroupUpdate,
   GLCmd.pointLightGroupUpdate]

/-- The "Generate G Buffer" block of `paintGL` (lines 540-547). -/
def geometryPassCmds : List GLCmd :=
  [GLCmd.bindFramebuffer FBTarget.deferredFB,
   GLCmd.clearColorAndDepth,
   GLCmd.floorGroupDraw,
   GLCmd.instanceGroupDraw,
   GLCmd.bindFramebuffer FBTarget.defaultFB]

/-- `MainWidget::paintGL` (lines 508-555) as a command trace.  The whole
body is gated on `!p.m_paused`; `paintGL` reads but never writes any
member of `MainWidgetPrivate`, so its CPU-side state is an input only. -/
def paintGL (paused : Bool) (buffer : DeferredData) : List GLCmd :=
  if paused then []
  else
    [GLCmd.bindProgram ProgName.gbufferProgram]
    ++ prepareSceneCmds
    ++ geometryPassCmds
    ++ [GLCmd.releaseProgram ProgName.gbufferProgram]
    ++ drawBackbuffer buffer

/-- Commands that constitute a draw call issued to the GPU. -/
def GLCmd.isDraw : GLCmd → Bool
  | GLCmd.floorGroupDraw => true
  | GLCmd.instanceGroupDraw => true
  | GLCmd.pointLightGroupDraw => true
  | GLCmd.quadDraw => true
  | _ => false

/-- Commands that write uniform data. -/
def GLCmd.isUniformWrite : GLCmd → Bool
  | GLCmd.uniformWrite _ _ => true
  | _ => false

/-- Commands that bind a framebuffer. -/
def GLCmd.isFramebufferBind : GLCmd → Bool
  | GLCmd.bindFramebuffer _ => true
  | _ => false

/-- The uniform-buffer writes (byte offset, byte length) occurring in a
command trace, in order. -/
def uniformWritesOf (cmds : List GLCmd) : List (Nat × Nat) :=
  cmds.filterMap fun c =>
    match c with
    | GLCmd.uniformWrite o l => some (o, l)
    | _ => none

/-! ## Render targets and framebuffer objects (`updateBackbuffer`) -/

/-- Texture internal formats used by the renderer:
`OpenGLInternalFormat::Rgba32F` and `OpenGLInternalFormat::Depth32F`. -/
inductive InternalFormat
  | Rgba32F
  | Depth32F
  deriving DecidableEq, Repr

/-- Texture wrap modes (only `ClampToEdge` is used). -/
inductive WrapMode
  | ClampToEdge
  | Repeat
  deriving DecidableEq, Repr

/-- Texture filters (only `Nearest` is used). -/
inductive TexFilter
  | Nearest
  | Linear
  deriving DecidableEq, Repr

/-- The observable configuration of an `OpenGLTexture` after
`constructDeferredTexture` ran on it. -/
structure Texture where
  width : Nat
  height : Nat
  format : InternalFormat
  wrapS : WrapMode
  wrapT : WrapMode
  magFilter : TexFilter
  minFilter : TexFilter
  allocated : Bool
  deriving DecidableEq, Repr

/-- `MainWidgetPrivate::constructDeferredTexture` (lines 328-340):
creates, binds, configures, sizes to `(m_width, m_height)`, and
allocates a texture. -/
def constructDeferredTexture (w h : Nat) (f : InternalFormat) : Texture :=
  { width := w
    height := h
    format := f
    wrapS := WrapMode.ClampToEdge
    wrapT := WrapMode.ClampToEdge
    magFilter := TexFilter.Nearest
    minFilter := TexFilter.Nearest
    allocated := true }

/-- An `OpenGLFramebufferObject`'s attachment state: color attachment
slots, depth attachment, and the draw-buffer list. -/
structure FramebufferObject where
  colorAttachments : List (Nat × TexName)
  depthAttachment : Option TexName
  drawBufs : List Nat
  deriving DecidableEq, Repr

/-- A freshly created framebuffer object with no attachments. -/
def FramebufferObject.empty : FramebufferObject :=
  { colorAttachments := [], depthAttachment := none, drawBufs := [] }

/-- `attachTexture2D(TargetDraw, ColorAttachmentN, tex)`: binds `tex` to
color attachment slot `slot`, replacing any previous binding there. -/
def FramebufferObject.attachColor (fb : FramebufferObject) (slot : Nat)
    (t : TexName) : FramebufferObject :=
  { fb with colorAttachments :=
      fb.colorAttachments.filter (fun p => p.1 ≠ slot) ++ [(slot, t)] }

/-- `attachTexture2D(TargetDraw, DepthAttachment, tex)`. -/
def FramebufferObject.attachDepth (fb : FramebufferObject)
    (t : TexName) : FramebufferObject :=
  { fb with depthAttachment := some t }

/-- `drawBuffers(...)`: sets the draw-buffer list to the given slots. -/
def FramebufferObject.setDrawBuffers (fb : FramebufferObject)
    (slots : List Nat) : FramebufferObject :=
  { fb with drawBufs := slots }

/-- The texture bound at a color attachment slot, if any. -/
def FramebufferObject.colorAt (fb : FramebufferObject) (slot : Nat) :
    Option TexName :=
  (fb.colorAttachments.find? (fun p => p.1 = slot)).map (fun p => p.2)

/-- `OpenGLFramebufferObject` completeness status codes, as matched by
the `switch` statements at lines 235-254 and 265-284. -/
inductive FBStatus
  | Complete
  | IncompleteAttachment
  | IncompleteMissingAttachment
  | IncompleteDrawBuffer
  | IncompleteReadBuffer
  | Unsupported
  deriving DecidableEq, Repr, Fintype

/-- The fatal-error message `updateBackbuffer` produces for each
completeness status: `none` means the `Complete` case falls through
(`break` with no `qFatal`), `some msg` means `qFatal(msg)` terminates
the program with that message. -/
def statusFatalMsg : FBStatus → Option String
  | FBStatus.Complete => none
  | FBStatus.IncompleteAttachment => some "Incomplete Attachment"
  | FBStatus.IncompleteMissingAttachment => some "Incomplete Missing Attachment"
  | FBStatus.IncompleteDrawBuffer => some "Incomplete Draw Buffer"
  | FBStatus.IncompleteReadBuffer => some "Incomplete Read Buffer"
  | FBStatus.Unsupported => some "Unsupported"

/-- The render-target state owned by `MainWidgetPrivate` after
`updateBackbuffer` completes: `m_width`, `m_height`, the four
`m_deferredTextures`, `m_backBuffer`, `m_depthTexture`, and the two
framebuffer objects. -/
structure RenderTargets where
  width : Nat
  height : Nat
  deferredTextures : List Texture
  backBuffer : Texture
  depthTexture : Texture
  deferredBuffer : FramebufferObject
  lightBuffer : FramebufferObject
  deriving DecidableEq, Repr

/-- `MainWidgetPrivate::updateBackbuffer(w, h)` (lines 209-287).  The
two completeness statuses come back from the GL driver, so they are
inputs here; a non-`Complete` status makes the corresponding `switch`
call `qFatal`, modelled as `Except.error` carrying the fatal message.
The G-buffer FBO is wired and validated first, then the light FBO, in
source order. -/
def updateBackbuffer (w h : Nat) (statusDeferred statusLight : FBStatus) :
    Except String RenderTargets :=
  let texs := (List.range DEFERRED_TEXTURES).map
    (fun _ => constructDeferredTexture w h InternalFormat.Rgba32F)
  let bb := constructDeferredTexture w h InternalFormat.Rgba32F
  let dt := constructDeferredTexture w h InternalFormat.Depth32F
  let dfb :=
    ((((((FramebufferObject.empty.attachColor 0 TexName.backBufferTex).attachColor
        1 (TexName.deferredTexture 0)).attachColor
        2 (TexName.deferredTexture 1)).attachColor
        3 (TexName.deferredTexture 2)).attachColor
        4 (TexName.deferredTexture 3)).attachDepth
        TexName.depthTex).setDrawBuffers [0, 1, 2, 3, 4]
  match statusFatalMsg statusDeferred with
  | some msg => Except.error msg
  | none =>
    let lfb :=
      ((FramebufferObject.empty.attachColor 0
          (TexName.deferredTexture 3)).attachDepth
          TexName.depthTex).setDrawBuffers [0]
    match statusFatalMsg statusLight with
    | some msg => Except.error msg
    | none =>
      Except.ok
        { width := w
          height := h
          deferredTextures := texs
          backBuffer := bb
          depthTexture := dt
          deferredBuffer := dfb
          lightBuffer := lfb }

/-- All six render-target textures of a `RenderTargets` value: the four
G-buffer channels, the back-buffer, and the depth texture. -/
def RenderTargets.allTextures (r : RenderTargets) : List Texture :=
  r.deferredTextures ++ [r.backBuffer, r.depthTexture]

/-- `MainWidget::resizeGL` (lines 496-506) rebuilds the render targets
via `updateBackbuffer(width, height)`; the projection and depth-range
float updates it also performs carry no data any claim inspects and are
abstracted away.  Framebuffer validation thus happens here, at resize
time. -/
def resizeGL (w h : Nat) (statusDeferred statusLight : FBStatus) :
    Except String RenderTargets :=
  updateBackbuffer w h statusDeferred statusLight

/-! ## Half-edge mesh, boundary query, and mesh reload -/

/-- A vertex position.  Positions are opaque data to the boundary query;
integer coordinates stand in for the float triples. -/
abbrev Vec3 := Int × Int × Int

/-- Modelled from the spec: the Mesh Provider collaborator (`KHalfEdgeMesh`,
whose source is not part of the covered core) exposes for each half-edge
its destination vertex (`to`), its next-half-edge link (`next`), and its
owning face, where a null face (index 0) marks a boundary half-edge.
Indices are 1-based handles as used by `vertex(...)` / `halfEdge(...)`. -/
structure HalfEdge where
  dest : Nat
  next : Nat
  face : Nat
  deriving DecidableEq, Repr

/-- Modelled from the spec: the Mesh Provider's topology-validated mesh,
exposing a vertex list (positions) and the half-edge list consumed by
the boundary query in `loadObj`. -/
structure HEMesh where
  vertices : List Vec3
  halfEdges : List HalfEdge
  deriving DecidableEq, Repr

/-- `m_halfEdgeMesh->vertex(i)->position` for a 1-based vertex handle. -/
def HEMesh.vertexPos (m : HEMesh) (i : Nat) : Vec3 :=
  m.vertices.getD (i - 1) (0, 0, 0)

/-- `m_halfEdgeMesh->halfEdge(i)` for a 1-based half-edge handle. -/
def HEMesh.halfEdgeAt (m : HEMesh) (i : Nat) : HalfEdge :=
  m.halfEdges.getD (i - 1) { dest := 0, next := 0, face := 0 }

/-- The boundary query of `loadObj` (lines 162-170): SELECT FROM the
mesh's half-edges WHERE `edge.face == 0`, JOINing the position of
`edge.to` with the position of `halfEdge(edge.next)->to`. -/
def boundaryQuery (m : HEMesh) : List (Vec3 × Vec3) :=
  (m.halfEdges.filter (fun e => e.face == 0)).map
    (fun e => (m.vertexPos e.dest, m.vertexPos (m.halfEdgeAt e.next).dest))

/-- Modelled from the spec: `createOpenGLMesh` converts the half-edge
topology into a GPU-drawable vertex buffer; the buffer is determined by
the source mesh, which is all the atomicity claim observes. -/
structure OpenGLMeshData where
  source : HEMesh
  deriving DecidableEq, Repr

/-- The mesh-related members of `MainWidgetPrivate` that `loadObj`
mutates: `m_paused`, `m_openGLMesh`, `m_halfEdgeMesh`, `m_boundaries`
(null pointers are `none`). -/
structure MeshState where
  paused : Bool
  openGLMesh : Option OpenGLMeshData
  halfEdgeMesh : Option HEMesh
  boundaries : List (Vec3 × Vec3)
  deriving DecidableEq, Repr

/-- `MainWidgetPrivate::loadObj` (lines 135-183) as the sequence of
member states after each mutating statement: set `m_paused = true`
(having saved the old value), delete the old meshes and clear the
boundary list, build the new half-edge mesh, build its GPU mesh, run the
boundary query, and finally restore `m_paused` to the saved value.  The
mesh built from the file is an input, the file load itself being the
Mesh Provider's work. -/
def loadObjStates (newMesh : HEMesh) (s : MeshState) : List MeshState :=
  let oldValue := s.paused
  let s1 := { s with paused := true }
  let s2 := { s1 with openGLMesh := none, halfEdgeMesh := none,
                      boundaries := [] }
  let s3 := { s2 with halfEdgeMesh := some newMesh }
  let s4 := { s3 with openGLMesh := some { source := newMesh } }
  let s5 := { s4 with boundaries := boundaryQuery newMesh }
  let s6 := { s5 with paused := oldValue }
  [s1, s2, s3, s4, s5, s6]

/-- The final state of `loadObj`. -/
def loadObj (newMesh : HEMesh) (s : MeshState) : MeshState :=
  (loadObjStates newMesh s).getLastD s

/-- `MainWidgetPrivate::openObj` (lines 185-196): the file dialog's
result is `none` when the returned `QString` is null (cancellation), in
which case nothing happens; otherwise `loadObj` runs on the mesh the
provider builds from the chosen file. -/
def openObj (provider : String → HEMesh) (dialogResult : Option String)
    (s : MeshState) : MeshState :=
  match dialogResult with
  | none => s
  | some fileName => loadObj (provider fileName) s

/-! ## Per-frame update (`updateEvent`) -/

/-- A mutation applied to the camera (`KCamera3D`).  The float angles
and vectors of `rotate`/`translate` are kept symbolically: a camera
value is the sequence of operations applied to it, so two cameras are
equal exactly when the same operations were applied in the same order. -/
inductive CamOp
  | rotateAboutUp (mouseDX : Int)
  | rotateAboutRight (mouseDY : Int)
  | translateWASDQE (w s a d e q : Bool) (transSpeed : Int)
  deriving DecidableEq, Repr

/-- A `KCamera3D` value, as the sequence of mutations applied since
default construction. -/
abbrev Camera := List CamOp

/-- A mutation applied to `m_transform` (`KTransform3D`), symbolically. -/
inductive XformOp
  | pinchScale (scaleFactor : Int)
  | pinchRotate (angleDelta : Int)
  | panTranslate (dx dy : Int)
  | dragRotate
  deriving DecidableEq, Repr

/-- `Qt::TouchPointState` values distinguished by `updateEvent`. -/
inductive TouchState
  | pressed
  | moved
  | otherState
  deriving DecidableEq, Repr

/-- The per-frame snapshot of the Input/Gesture Service read by
`updateEvent` (lines 566-724): button/key state, mouse delta, gestures,
and the file-dialog outcome used when Ctrl+O triggers `openObj`. -/
structure UInput where
  rightButton : Bool
  keyCtrl : Bool
  keyW : Bool
  keyS : Bool
  keyA : Bool
  keyD : Bool
  keyE : Bool
  keyQ : Bool
  keyOTriggered : Bool
  key0 : Bool
  key1 : Bool
  key2 : Bool
  key3 : Bool
  key4 : Bool
  key5 : Bool
  key6 : Bool
  key7 : Bool
  key8 : Bool
  key9 : Bool
  mouseDX : Int
  mouseDY : Int
  pinch : Option (Int × Int)
  pan : Option (Int × Int)
  touch : Option (Int × Int × TouchState)
  dialogResult : Option String
  deriving DecidableEq, Repr

/-- The members of `MainWidgetPrivate` that `updateEvent` touches:
camera and previous camera, the decorative model transform, the selected
channel, per-instance transforms, the point-light phase (the static
`f` accumulator, counted in update steps), drag state, and the mesh
state reached through `openObj`. -/
structure AppState where
  camera : Camera
  cameraPrev : Camera
  transform : List XformOp
  buffer : DeferredData
  instances : List (List Nat)
  lightPhaseSteps : Nat
  dragAxis : Int × Int
  dragDamping : Nat
  mesh : MeshState
  deriving DecidableEq, Repr

/-- The camera-mutation block of `updateEvent` (lines 591-632): only
when the right mouse button is held, rotate by the mouse delta about
local-up and camera-right, then translate along the WASDQE axes with
speed 3 (or 1 while Ctrl is held). -/
def applyCameraInput (i : UInput) (c : Camera) : Camera :=
  if i.rightButton then
    let transSpeed : Int := if i.keyCtrl then 1 else 3
    c ++ [CamOp.rotateAboutUp i.mouseDX,
          CamOp.rotateAboutRight i.mouseDY,
          CamOp.translateWASDQE i.keyW i.keyS i.keyA i.keyD i.keyE i.keyQ
            transSpeed]
  else c

/-- The channel-selection block of `updateEvent` (lines 643-682): ten
consecutive `if` statements, a later pressed key overriding an earlier
one.  Key 0 selects `LightPass`; keys 1-9 select enum values 0-8. -/
def selectBuffer (i : UInput) (b : DeferredData) : DeferredData :=
  let b := if i.key0 then DeferredData.LightPass else b
  let b := if i.key1 then DeferredData.DepthData else b
  let b := if i.key2 then DeferredData.LinearDepthData else b
  let b := if i.key3 then DeferredData.PositionData else b
  let b := if i.key4 then DeferredData.NormalData else b
  let b := if i.key5 then DeferredData.DiffuseData else b
  let b := if i.key6 then DeferredData.SpecularData else b
  let b := if i.key7 then DeferredData.VelocityData else b
  let b := if i.key8 then DeferredData.AmbientPass else b
  let b := if i.key9 then DeferredData.MotionBlurPass else b
  b

/-- Observable steps of `updateEvent`, used to state ordering
properties: the previous-camera snapshot, and each kind of mutation the
rest of the handler performs. -/
inductive UEvent
  | snapshotPrevCamera
  | mutateInstances
  | mutateLights
  | mutateCamera
  | openObjCall
  | selectChannel
  | mutateTransform
  | mutateDragState
  deriving DecidableEq, Repr

/-- The steps `updateEvent` performs for input `i`, in program order.
The trace depends only on the input snapshot: the previous-camera
snapshot is the first statement of the handler (line 570), followed by
instance rotation, point-light repositioning, the conditional
camera-mutation block, the conditional Ctrl+O reload, channel
selection, pinch/pan/touch gesture handling, and the final drag-decay
step (velocity damping plus the unconditional transform rotation). -/
def updateEventTrace (i : UInput) : List UEvent :=
  [UEvent.snapshotPrevCamera, UEvent.mutateInstances, UEvent.mutateLights]
  ++ (if i.rightButton then [UEvent.mutateCamera] else [])
  ++ (if i.keyCtrl && i.keyOTriggered then [UEvent.openObjCall] else [])
  ++ [UEvent.selectChannel]
  ++ (if i.pinch.isSome then [UEvent.mutateTransform] else [])
  ++ (if i.pan.isSome then [UEvent.mutateTransform] else [])
  ++ (if i.touch.isSome then [UEvent.mutateDragState] else [])
  ++ [UEvent.mutateDragState, UEvent.mutateTransform]

/-- `MainWidget::updateEvent` (lines 566-724) as a state transformer,
paired with its step trace `updateEventTrace`.  The state mutations are
applied in the same program order the trace records. -/
def updateEvent (provider : String → HEMesh) (i : UInput)
    (s : AppState) : AppState × List UEvent :=
  let s := { s with cameraPrev := s.camera }
  let s := { s with instances :=
      s.instances.map (fun (ops : List Nat) => ops ++ [ops.length]) }
  let s := { s with lightPhaseSteps := s.lightPhaseSteps + 1 }
  let s := { s with camera := applyCameraInput i s.camera }
  let s := if i.keyCtrl && i.keyOTriggered then
      { s with mesh := openObj provider i.dialogResult s.mesh } else s
  let s := { s with buffer := selectBuffer i s.buffer }
  let s := match i.pinch with
    | some (scaleFactor, angleDelta) =>
      { s with transform := s.transform ++
          [XformOp.pinchScale scaleFactor, XformOp.pinchRotate angleDelta] }
    | none => s
  let s := match i.pan with
    | some (dx, dy) =>
      { s with transform := s.transform ++ [XformOp.panTranslate dx dy] }
    | none => s
  let s := match i.touch with
    | some (_, _, TouchState.pressed) => { s with dragDamping := 0 }
    | some (dx, dy, TouchState.moved) =>
      { s with dragAxis := (dy, dx), dragDamping := 0 }
    | _ => s
  let s := { s with dragDamping := s.dragDamping + 1,
                    transform := s.transform ++ [XformOp.dragRotate] }
  (s, updateEventTrace i)

/-- A run of consecutive frame updates from an initial state. -/
def runFrames (provider : String → HEMesh) (inps : List UInput)
    (s : AppState) : AppState :=
  inps.foldl (fun st i => (updateEvent provider i st).1) s

/-- The state established by the constructors (lines 120-128 and
345-354): camera and previous camera default-constructed (hence equal),
channel defaulting to the composed result `LightPass`, not paused, no
mesh loaded.  The constructor's decorative scale/translate of
`m_transform` carries no data any claim inspects and is not tracked. -/
def initialAppState : AppState :=
  { camera := []
    cameraPrev := []
    transform := []
    buffer := DeferredData.LightPass
    instances := []
    lightPhaseSteps := 0
    dragAxis := (0, 0)
    dragDamping := 0
    mesh := { paused := false, openGLMesh := none, halfEdgeMesh := none,
              boundaries := [] } }

/-- One `paintGL` call as a transformer of the widget state paired with
the GPU commands it issues.  `paintGL` writes no member of
`MainWidgetPrivate`, so the CPU-side state is returned unchanged; all
its effects are the command trace. -/
def paintGLFrame (s : AppState) : AppState × List GLCmd :=
  (s, paintGL s.mesh.paused s.buffer)

/-- `n` consecutive `paintGL` calls, with their concatenated traces. -/
def paintGLFrames (n : Nat) (s : AppState) : AppState × List GLCmd :=
  match n with
  | 0 => (s, [])
  | Nat.succ m =>
    let r1 := paintGLFrame s
    let r2 := paintGLFrames m r1.1
    (r2.1, r1.2 ++ r2.2)

/-! ## Theorems -/

/-- The render-target state `updateBackbuffer w h` produces when both
framebuffers validate as complete, written out attachment by
attachment. -/
def builtRenderTargets (w h : Nat) : RenderTargets :=
  { width := w
    height := h
    deferredTextures :=
      List.replicate DEFERRED_TEXTURES
        (constructDeferredTexture w h InternalFormat.Rgba32F)
    backBuffer := constructDeferredTexture w h InternalFormat.Rgba32F
    depthTexture := constructDeferredTexture w h InternalFormat.Depth32F
    deferredBuffer :=
      { colorAttachments :=
          [(0, TexName.backBufferTex), (1, TexName.deferredTexture 0),
           (2, TexName.deferredTexture 1), (3, TexName.deferredTexture 2),
           (4, TexName.deferredTexture 3)]
        depthAttachment := some TexName.depthTex
        drawBufs := [0, 1, 2, 3, 4] }
    lightBuffer :=
      { colorAttachments := [(0, TexName.deferredTexture 3)]
        depthAttachment := some TexName.depthTex
        drawBufs := [0] } }

/-- A closed mesh for concrete checks: a double-sided triangle, every
half-edge owned by a face (face handles 1 and 2). -/
def closedTriangleMesh : HEMesh :=
  { vertices := [(0, 0, 0), (1, 0, 0), (0, 1, 0)]
    halfEdges :=
      [{ dest := 2, next := 2, face := 1 },
       { dest := 3, next := 3, face := 1 },
       { dest := 1, next := 1, face := 1 },
       { dest := 3, next := 5, face := 2 },
       { dest := 1, next := 6, face := 2 },
       { dest := 2, next := 4, face := 2 }] }

/-- A quad plane with a single face and an unclosed boundary loop of
four edges: half-edges 1-4 bound the face, half-edges 5-8 form the open
loop (no owning face). -/
def quadPlaneMesh : HEMesh :=
  { vertices := [(0, 0, 0), (1, 0, 0), (1, 1, 0), (0, 1, 0)]
    halfEdges :=
      [{ dest := 2, next := 2, face := 1 },
       { dest := 3, next := 3, face := 1 },
       { dest := 4, next := 4, face := 1 },
       { dest := 1, next := 1, face := 1 },
       { dest := 1, next := 6, face := 0 },
       { dest := 4, next := 7, face := 0 },
       { dest := 3, next := 8, face := 0 },
       { dest := 2, next := 5, face := 0 }] }

/-- An input snapshot with nothing pressed and no gesture active. -/
def idleInput : UInput :=
  { rightButton := false, keyCtrl := false, keyW := false, keyS := false
    keyA := false, keyD := false, keyE := false, keyQ := false
    keyOTriggered := false
    key0 := false, key1 := false, key2 := false, key3 := false
    key4 := false, key5 := false, key6 := false, key7 := false
    key8 := false, key9 := false
    mouseDX := 0, mouseDY := 0
    pinch := none, pan := none, touch := none, dialogResult := none }

theorem updateBackbuffer_complete_eq (w h : Nat) :
    updateBackbuffer w h FBStatus.Complete FBStatus.Complete =
      Except.ok (builtRenderTargets w h) := by
  rfl

theorem updateBackbuffer_ok_iff (w h : Nat) (sD sL : FBStatus)
    (r : RenderTargets) :
    updateBackbuffer w h sD sL = Except.ok r ↔
      (sD = FBStatus.Complete ∧ sL = FBStatus.Complete ∧
       r = builtRenderTargets w h) := by
  cases sD <;> cases sL <;>
    simp [updateBackbuffer, statusFatalMsg, builtRenderTargets, eq_comm]
  exact Iff.rfl

theorem updateBackbuffer_error_iff (w h : Nat) (sD sL : FBStatus)
    (m : String) :
    updateBackbuffer w h sD sL = Except.error m ↔
      (statusFatalMsg sD = some m ∨
       (sD = FBStatus.Complete ∧ statusFatalMsg sL = some m)) := by
  cases sD <;> cases sL <;>
    simp [updateBackbuffer, statusFatalMsg, eq_comm]

/-- C1: in every rendered (unpaused) frame, the light-accumulation pass
— binding the light framebuffer and drawing the point-light volumes —
executes if and only if the selected channel is the composed result
(`LightPass`) or the motion-blur channel (`MotionBlurPass`); for every
other channel the frame's draw calls are exactly the geometry pass's
floor and instance draws followed directly by the present pass's
full-screen quad, with no light-volume draw issued. -/
theorem lightPass_iff_composed_or_motionBlur :
    ∀ b : DeferredData,
      ((GLCmd.pointLightGroupDraw ∈ paintGL false b) ↔
        (b = DeferredData.LightPass ∨ b = DeferredData.MotionBlurPass)) ∧
      ((GLCmd.bindFramebuffer FBTarget.lightFB ∈ paintGL false b) ↔
        (b = DeferredData.LightPass ∨ b = DeferredData.MotionBlurPass)) ∧
      (¬ (b = DeferredData.LightPass ∨ b = DeferredData.MotionBlurPass) →
        (paintGL false b).filter GLCmd.isDraw =
          [GLCmd.floorGroupDraw, GLCmd.instanceGroupDraw, GLCmd.quadDraw]) := by
  decide

/-- Witness for C1 at the normal-channel selection: the light pass is
skipped and the quad draw follows the geometry draws directly. -/
theorem lightPass_iff_composed_or_motionBlur_witness :
    (¬ (DeferredData.NormalData = DeferredData.LightPass ∨
        DeferredData.NormalData = DeferredData.MotionBlurPass)) ∧
    (paintGL false DeferredData.NormalData).filter GLCmd.isDraw =
      [GLCmd.floorGroupDraw, GLCmd.instanceGroupDraw, GLCmd.quadDraw] :=
  ⟨by decide,
   (lightPass_iff_composed_or_motionBlur DeferredData.NormalData).2.2
     (by decide)⟩

/-- C4: whenever the pause flag is set, a `paintGL` call issues no GPU
command at all — in particular no draw call, no uniform write, and no
framebuffer bind — and leaves the widget state unchanged, for every
number of repeated calls while paused. -/
theorem paused_paintGL_is_noop :
    ∀ (n : Nat) (s : AppState), s.mesh.paused = true →
      paintGLFrames n s = (s, []) ∧
      ((paintGLFrames n s).2.filter GLCmd.isDraw = [] ∧
       (paintGLFrames n s).2.filter GLCmd.isUniformWrite = [] ∧
       (paintGLFrames n s).2.filter GLCmd.isFramebufferBind = []) := by
  intro n s hp
  have hone : paintGLFrames n s = (s, []) := by
    induction n with
    | zero => rfl
    | succ m ih =>
      simp only [paintGLFrames, paintGLFrame, paintGL, hp, if_true]
      simp [ih]
  exact ⟨hone, by simp [hone]⟩

/-- Witness for C4: three paints while paused in the initial state with
the flag set leave state and trace empty. -/
theorem paused_paintGL_is_noop_witness :
    ({ initialAppState with
        mesh := { initialAppState.mesh with paused := true } }.mesh.paused
      = true) ∧
    paintGLFrames 3
      { initialAppState with
        mesh := { initialAppState.mesh with paused := true } } =
      ({ initialAppState with
         mesh := { initialAppState.mesh with paused := true } }, []) :=
  ⟨by decide,
   (paused_paintGL_is_noop 3
     { initialAppState with
       mesh := { initialAppState.mesh with paused := true } } (by decide)).1⟩

/-- C9: when the file-open dialog returns no selection, `openObj`
performs no load: the entire mesh state — active meshes, boundary-edge
set, pause flag — is returned exactly as it was. -/
theorem openObj_cancel_is_noop :
    ∀ (provider : String → HEMesh) (s : MeshState),
      openObj provider none s = s := by
  intro provider s
  rfl

/-- C10: the shared uniform block is allocated at 169 floats, and every
per-frame write lies within that allocation: ten 16-float matrices at
float offsets 0,16,…,144, the 4-float ambient color at float offset
160, and five scalars at float offsets 164-168 (shown below in bytes,
one float being 4 bytes); a paused frame writes nothing. -/
theorem uniform_writes_within_allocation :
    ∀ b : DeferredData,
      matrixBlockAllocation = sizeofFloat * 169 ∧
      uniformWritesOf (paintGL false b) =
        [(0, 64), (64, 64), (128, 64), (192, 64), (256, 64),
         (320, 64), (384, 64), (448, 64), (512, 64), (576, 64),
         (640, 16), (656, 4), (660, 4), (664, 4), (668, 4), (672, 4)] ∧
      ((uniformWritesOf (paintGL false b)).all
        (fun wr => wr.1 + wr.2 ≤ matrixBlockAllocation) = true) ∧
      uniformWritesOf (paintGL true b) = [] := by
  decide

/-- C2: after every rebuild of the frame-graph buffers that completes,
the G-buffer framebuffer has color attachments 0-4 bound to the
back-buffer texture and G-buffer channel textures 0-3 in that order,
its depth attachment bound to the depth texture, and all five color
attachments enabled as draw buffers; the light framebuffer has color
attachment 0 bound to G-buffer channel texture 3, its depth attachment
bound to the same depth texture, and only color attachment 0 as draw
buffer. -/
theorem framebuffer_attachment_wiring :
    ∀ (w h : Nat) (sD sL : FBStatus) (r : RenderTargets),
      updateBackbuffer w h sD sL = Except.ok r →
      r.deferredBuffer.colorAt 0 = some TexName.backBufferTex ∧
      r.deferredBuffer.colorAt 1 = some (TexName.deferredTexture 0) ∧
      r.deferredBuffer.colorAt 2 = some (TexName.deferredTexture 1) ∧
      r.deferredBuffer.colorAt 3 = some (TexName.deferredTexture 2) ∧
      r.deferredBuffer.colorAt 4 = some (TexName.deferredTexture 3) ∧
      r.deferredBuffer.depthAttachment = some TexName.depthTex ∧
      r.deferredBuffer.drawBufs = [0, 1, 2, 3, 4] ∧
      r.lightBuffer.colorAt 0 = some (TexName.deferredTexture 3) ∧
      r.lightBuffer.depthAttachment = some TexName.depthTex ∧
      r.lightBuffer.drawBufs = [0] := by
  intro w h sD sL r hok
  rcases (updateBackbuffer_ok_iff w h sD sL r).mp hok with ⟨-, -, hr⟩
  subst hr
  exact ⟨rfl, rfl, rfl, rfl, rfl, rfl, rfl, rfl, rfl, rfl⟩

/-- Witness for C2 at an 800×600 rebuild with both statuses complete. -/
theorem framebuffer_attachment_wiring_witness :
    (updateBackbuffer 800 600 FBStatus.Complete FBStatus.Complete =
      Except.ok (builtRenderTargets 800 600)) ∧
    (builtRenderTargets 800 600).deferredBuffer.drawBufs = [0, 1, 2, 3, 4] ∧
    (builtRenderTargets 800 600).lightBuffer.colorAt 0 =
      some (TexName.deferredTexture 3) :=
  ⟨rfl,
   (framebuffer_attachment_wiring 800 600 FBStatus.Complete FBStatus.Complete
     (builtRenderTargets 800 600) rfl).2.2.2.2.2.2.1,
   (framebuffer_attachment_wiring 800 600 FBStatus.Complete FBStatus.Complete
     (builtRenderTargets 800 600) rfl).2.2.2.2.2.2.2.1⟩

/-- C3: framebuffer validation happens inside the rebuild (which only
`resizeGL` triggers, never the draw path): the status check is fatal
exactly for non-`Complete` statuses, each failure subtype terminating
with its own distinct message ("Incomplete Attachment", "Incomplete
Missing Attachment", "Incomplete Draw Buffer", "Incomplete Read
Buffer", "Unsupported"), while a `Complete` status continues without
error. -/
theorem framebuffer_validation_failfast :
    (∀ s, statusFatalMsg s = none ↔ s = FBStatus.Complete) ∧
    (∀ s1 s2 : FBStatus, statusFatalMsg s1 = statusFatalMsg s2 → s1 = s2) ∧
    (statusFatalMsg FBStatus.IncompleteAttachment =
       some "Incomplete Attachment" ∧
     statusFatalMsg FBStatus.IncompleteMissingAttachment =
       some "Incomplete Missing Attachment" ∧
     statusFatalMsg FBStatus.IncompleteDrawBuffer =
       some "Incomplete Draw Buffer" ∧
     statusFatalMsg FBStatus.IncompleteReadBuffer =
       some "Incomplete Read Buffer" ∧
     statusFatalMsg FBStatus.Unsupported = some "Unsupported") ∧
    (∀ w h sD sL, resizeGL w h sD sL = updateBackbuffer w h sD sL) ∧
    (∀ w h sD sL r, updateBackbuffer w h sD sL = Except.ok r →
       sD = FBStatus.Complete ∧ sL = FBStatus.Complete) ∧
    (∀ w h sD sL m, updateBackbuffer w h sD sL = Except.error m →
       statusFatalMsg sD = some m ∨ statusFatalMsg sL = some m) ∧
    (∀ w h, updateBackbuffer w h FBStatus.Complete FBStatus.Complete =
       Except.ok (builtRenderTargets w h)) := by
  refine ⟨by decide, by decide, by decide, fun w h sD sL => rfl, ?_, ?_,
    fun w h => updateBackbuffer_complete_eq w h⟩
  · intro w h sD sL r hok
    rcases (updateBackbuffer_ok_iff w h sD sL r).mp hok with ⟨h1, h2, -⟩
    exact ⟨h1, h2⟩
  · intro w h sD sL m herr
    rcases (updateBackbuffer_error_iff w h sD sL m).mp herr with h | ⟨-, h⟩
    · exact Or.inl h
    · exact Or.inr h

/-- Witness for C3: a bad-draw-buffer status on the G-buffer FBO at
800×600 is fatal with its specific message, and a complete rebuild is
not fatal. -/
theorem framebuffer_validation_failfast_witness :
    (updateBackbuffer 800 600 FBStatus.IncompleteDrawBuffer FBStatus.Complete =
       Except.error "Incomplete Draw Buffer") ∧
    (statusFatalMsg FBStatus.IncompleteDrawBuffer =
       some "Incomplete Draw Buffer" ∨
     statusFatalMsg FBStatus.Complete = some "Incomplete Draw Buffer") ∧
    (FBStatus.Complete = FBStatus.Complete ∧
     FBStatus.Complete = FBStatus.Complete) :=
  ⟨rfl,
   framebuffer_validation_failfast.2.2.2.2.2.1 800 600
     FBStatus.IncompleteDrawBuffer FBStatus.Complete
     "Incomplete Draw Buffer" rfl,
   framebuffer_validation_failfast.2.2.2.2.1 800 600
     FBStatus.Complete FBStatus.Complete (builtRenderTargets 800 600)
     rfl⟩

/-- C8: for every resize to positive width and height that completes,
all six render-target textures — the four G-buffer channels, the
back-buffer, and the depth texture — are recreated with size exactly
(w, h), clamp-to-edge wrapping on both axes, and nearest filtering for
both magnification and minification. -/
theorem resize_recreates_targets_at_size :
    ∀ (w h : Nat) (sD sL : FBStatus) (r : RenderTargets),
      0 < w → 0 < h →
      updateBackbuffer w h sD sL = Except.ok r →
      r.width = w ∧ r.height = h ∧ r.allTextures.length = 6 ∧
      ∀ t ∈ r.allTextures,
        t.width = w ∧ t.height = h ∧
        t.wrapS = WrapMode.ClampToEdge ∧ t.wrapT = WrapMode.ClampToEdge ∧
        t.magFilter = TexFilter.Nearest ∧ t.minFilter = TexFilter.Nearest ∧
        t.allocated = true := by
  intro w h sD sL r hw hh hok
  rcases (updateBackbuffer_ok_iff w h sD sL r).mp hok with ⟨-, -, hr⟩
  subst hr
  refine ⟨rfl, rfl, rfl, ?_⟩
  intro t ht
  simp only [RenderTargets.allTextures, builtRenderTargets] at ht
  rcases List.mem_append.mp ht with h1 | h1
  · cases List.eq_of_mem_replicate h1
    exact ⟨rfl, rfl, rfl, rfl, rfl, rfl, rfl⟩
  · simp only [List.mem_cons, List.mem_singleton, List.not_mem_nil,
      or_false] at h1
    rcases h1 with h2 | h2 <;> subst h2 <;>
      exact ⟨rfl, rfl, rfl, rfl, rfl, rfl, rfl⟩

/-- Witness for C8 at an 800×600 resize. -/
theorem resize_recreates_targets_at_size_witness :
    (0 < 800 ∧ 0 < 600 ∧
     updateBackbuffer 800 600 FBStatus.Complete FBStatus.Complete =
       Except.ok (builtRenderTargets 800 600)) ∧
    (builtRenderTargets 800 600).width = 800 ∧
    (builtRenderTargets 800 600).height = 600 ∧
    (builtRenderTargets 800 600).allTextures.length = 6 :=
  ⟨⟨by decide, by decide, rfl⟩,
   (resize_recreates_targets_at_size 800 600 FBStatus.Complete
     FBStatus.Complete (builtRenderTargets 800 600)
     (by decide) (by decide) rfl).1,
   (resize_recreates_targets_at_size 800 600 FBStatus.Complete
     FBStatus.Complete (builtRenderTargets 800 600)
     (by decide) (by decide) rfl).2.1,
   (resize_recreates_targets_at_size 800 600 FBStatus.Complete
     FBStatus.Complete (builtRenderTargets 800 600)
     (by decide) (by decide) rfl).2.2.1⟩

theorem updateEvent_fst_cameraPrev (provider : String → HEMesh)
    (i : UInput) (s : AppState) :
    (updateEvent provider i s).1.cameraPrev = s.camera := by
  cases hco : (i.keyCtrl && i.keyOTriggered) <;>
  cases hpc : i.pinch <;>
  cases hpn : i.pan <;>
  rcases htc : i.touch with _ | ⟨dx, dy, ts⟩
  all_goals try cases ts
  all_goals simp [updateEvent, hco, hpc, hpn, htc, applyCameraInput]

/-- C6: mesh reload keeps the pause flag discipline: `loadObj` sets the
flag on entry and restores the prior value at its single exit, every
intermediate state (after the old mesh and boundary data are destroyed
and before the new ones are complete) has the flag set, the final state
carries mesh, GPU buffer, and boundary set all derived from the new
mesh, and the dialog-cancellation path of `openObj` exits without
touching the flag or the mesh. -/
theorem mesh_reload_pause_discipline :
    ∀ (newMesh : HEMesh) (s : MeshState) (provider : String → HEMesh),
      ((loadObj newMesh s).paused = s.paused) ∧
      (∀ st ∈ (loadObjStates newMesh s).dropLast, st.paused = true) ∧
      ((loadObj newMesh s).halfEdgeMesh = some newMesh ∧
       (loadObj newMesh s).openGLMesh = some { source := newMesh } ∧
       (loadObj newMesh s).boundaries = boundaryQuery newMesh) ∧
      (openObj provider none s = s) := by
  intro newMesh s provider
  refine ⟨rfl, ?_, ⟨rfl, rfl, rfl⟩, rfl⟩
  intro st hst
  simp only [loadObjStates, List.dropLast, List.mem_cons, List.not_mem_nil,
    or_false] at hst
  rcases hst with h | h | h | h | h <;> subst h <;> rfl

/-- Witness for C6: reloading the quad mesh from the unpaused initial
state goes through a first intermediate state with the flag set and
ends with the flag back to false. -/
theorem mesh_reload_pause_discipline_witness :
    (({ paused := true, openGLMesh := none, halfEdgeMesh := none,
        boundaries := [] } : MeshState) ∈
      (loadObjStates quadPlaneMesh
        { paused := false, openGLMesh := none, halfEdgeMesh := none,
          boundaries := [] }).dropLast) ∧
    MeshState.paused
      { paused := true, openGLMesh := none, halfEdgeMesh := none,
        boundaries := [] } = true ∧
    (loadObj quadPlaneMesh
      { paused := false, openGLMesh := none, halfEdgeMesh := none,
        boundaries := [] }).paused = false :=
  ⟨by decide,
   (mesh_reload_pause_discipline quadPlaneMesh
     { paused := false, openGLMesh := none, halfEdgeMesh := none,
       boundaries := [] } (fun _ => quadPlaneMesh)).2.1
     { paused := true, openGLMesh := none, halfEdgeMesh := none,
       boundaries := [] } (by decide),
   (mesh_reload_pause_discipline quadPlaneMesh
     { paused := false, openGLMesh := none, halfEdgeMesh := none,
       boundaries := [] } (fun _ => quadPlaneMesh)).1⟩

/-- C7: the boundary set computed at mesh load has exactly one entry
per half-edge with no owning face (so a closed mesh yields an empty
set, and a mesh whose boundary half-edges number N yields exactly N
entries), and each entry pairs the position of the half-edge's
destination vertex with the position of the destination of its next
half-edge — two adjacent vertices of the open loop. -/
theorem boundary_query_characterization :
    ∀ m : HEMesh,
      ((boundaryQuery m).length =
        (m.halfEdges.filter (fun e => e.face == 0)).length) ∧
      ((∀ e ∈ m.halfEdges, e.face ≠ 0) → boundaryQuery m = []) ∧
      (∀ e ∈ m.halfEdges, e.face = 0 →
        (m.vertexPos e.dest, m.vertexPos (m.halfEdgeAt e.next).dest) ∈
          boundaryQuery m) ∧
      (∀ pr ∈ boundaryQuery m, ∃ e, e ∈ m.halfEdges ∧ e.face = 0 ∧
        pr = (m.vertexPos e.dest,
              m.vertexPos (m.halfEdgeAt e.next).dest)) := by
  intro m
  refine ⟨by simp [boundaryQuery], ?_, ?_, ?_⟩
  · intro hclosed
    have hfil : m.halfEdges.filter (fun e => e.face == 0) = [] := by
      rw [List.filter_eq_nil_iff]
      intro e he
      simpa using hclosed e he
    simp [boundaryQuery, hfil]
  · intro e he hface
    simp only [boundaryQuery, List.mem_map]
    exact ⟨e, List.mem_filter.mpr ⟨he, by simpa using hface⟩, rfl⟩
  · intro pr hpr
    simp only [boundaryQuery, List.mem_map] at hpr
    obtain ⟨e, hef, heq⟩ := hpr
    have hmem := (List.mem_filter.mp hef).1
    have hface := (List.mem_filter.mp hef).2
    exact ⟨e, hmem, by simpa using hface, heq.symm⟩

/-- Witness for C7: the closed double-sided triangle has an empty
boundary set; the quad plane's open loop of four edges yields four
entries, among them the edge from vertex 1 to vertex 4. -/
theorem boundary_query_characterization_witness :
    boundaryQuery closedTriangleMesh = [] ∧
    ((quadPlaneMesh.vertexPos 1,
      quadPlaneMesh.vertexPos (quadPlaneMesh.halfEdgeAt 6).dest) ∈
      boundaryQuery quadPlaneMesh) ∧
    (boundaryQuery quadPlaneMesh).length =
      (quadPlaneMesh.halfEdges.filter (fun e => e.face == 0)).length ∧
    (quadPlaneMesh.halfEdges.filter (fun e => e.face == 0)).length = 4 :=
  ⟨(boundary_query_characterization closedTriangleMesh).2.1 (by decide),
   (boundary_query_characterization quadPlaneMesh).2.2.1
     { dest := 1, next := 6, face := 0 } (by decide) rfl,
   (boundary_query_characterization quadPlaneMesh).1,
   by decide⟩

/-- C5: `updateEvent` assigns the previous-frame camera from the
current camera exactly once, as its first step, before any
input/gesture handling mutates the current camera; hence in any frame
run the previous-camera value visible after frame n+1 equals the
current-camera value after frame n, and in the initial state previous
equals current (zero apparent motion on the first frame). -/
theorem cameraPrev_snapshot_per_frame :
    ∀ (provider : String → HEMesh) (i : UInput) (s : AppState)
      (inps : List UInput) (j : UInput),
      ((updateEvent provider i s).1.cameraPrev = s.camera) ∧
      ((updateEvent provider i s).2.head? = some UEvent.snapshotPrevCamera) ∧
      (UEvent.snapshotPrevCamera ∉ ((updateEvent provider i s).2.tail)) ∧
      ((runFrames provider (inps ++ [j]) s).cameraPrev =
        (runFrames provider inps s).camera) ∧
      (initialAppState.cameraPrev = initialAppState.camera) := by
  intro provider i s inps j
  refine ⟨updateEvent_fst_cameraPrev provider i s, rfl, ?_, ?_, rfl⟩
  · show UEvent.snapshotPrevCamera ∉ (updateEventTrace i).tail
    cases hrb : i.rightButton <;>
    cases hco : (i.keyCtrl && i.keyOTriggered) <;>
    cases hpc : i.pinch.isSome <;>
    cases hpn : i.pan.isSome <;>
    cases htc : i.touch.isSome <;>
      simp [updateEventTrace, hrb, hco, hpc, hpn, htc]
  · show (runFrames provider (inps ++ [j]) s).cameraPrev =
      (runFrames provider inps s).camera
    simp only [runFrames, List.foldl_append, List.foldl_cons, List.foldl_nil]
    exact updateEvent_fst_cameraPrev provider j _

/-- Witness for C5: one idle frame from the initial state snapshots the
initial camera, and after two frames the visible previous camera equals
the camera after one frame. -/
theorem cameraPrev_snapshot_per_frame_witness :
    ((updateEvent (fun _ => quadPlaneMesh) idleInput
        initialAppState).1.cameraPrev = initialAppState.camera) ∧
    ((runFrames (fun _ => quadPlaneMesh) ([idleInput] ++ [idleInput])
        initialAppState).cameraPrev =
      (runFrames (fun _ => quadPlaneMesh) [idleInput]
        initialAppState).camera) ∧
    (UEvent.snapshotPrevCamera ∉
      ((updateEvent (fun _ => quadPlaneMesh) idleInput
        initialAppState).2.tail)) :=
  ⟨(cameraPrev_snapshot_per_frame (fun _ => quadPlaneMesh) idleInput
      initialAppState [] idleInput).1,
   (cameraPrev_snapshot_per_frame (fun _ => quadPlaneMesh) idleInput
      initialAppState [idleInput] idleInput).2.2.2.1,
   (cameraPrev_snapshot_per_frame (fun _ => quadPlaneMesh) idleInput
      initialAppState [] idleInput).2.2.1⟩

end KarmaView
